import Mathlib

/-!
Verification development for the Reachy Mini camera/media pipeline
(`src/reachy_mini/media/webrtc_daemon.py` and the camera/webrtc HTTP routers).

The Python sources are shallowly embedded: each relevant method becomes a
Lean function over explicit state; subprocess and GStreamer effects are
recorded as data (process status, emitted actions, element configurations).
-/

namespace ReachyMini

/-! ### String containment (Python's `needle in haystack`) -/

/-- Does `hay` start with `needle`? (helper for substring containment). -/
def charListStarts : List Char → List Char → Bool
  | [], _ => true
  | _ :: _, [] => false
  | a :: as, b :: bs => a = b && charListStarts as bs

/-- Does `needle` occur as a contiguous sublist of `hay`?
Models Python's `needle in haystack` on strings. -/
def charListHasSub (needle : List Char) : List Char → Bool
  | [] => charListStarts needle []
  | c :: rest => charListStarts needle (c :: rest) || charListHasSub needle rest

/-- Python's `needle in hay` for strings. -/
def strContains (hay needle : String) : Bool :=
  charListHasSub needle.data hay.data

/-! ### Camera specs (`reachy_mini.media.camera_constants`)

Only the identity of the chosen specs object matters to the claims, so the
spec objects are embedded as a closed enumeration. -/

inductive CameraSpecs
  | arducam
  | reachyMiniLiteCam
  | reachyMiniWirelessCam
deriving DecidableEq, Repr

/-! ### Device resolution (`GstWebRTC._get_video_device`) -/

/-- A video source discovered by `Gst.DeviceMonitor` (`Video/Source` filter):
its display name and whether its properties carry `api.v4l2.path`. -/
structure VideoDevice where
  displayName : String
  hasV4l2Path : Bool
  v4l2Path : String
deriving DecidableEq, Repr

/-- The ordered hardware-class priority list (`cam_names`). -/
def camNames : List String := ["Reachy", "Arducam_12MP", "imx708"]

/-- Specs chosen for a path-bearing match:
`ArducamSpecs if cam_name == "Arducam_12MP" else ReachyMiniLiteCamSpecs`. -/
def specsFor (camName : String) : CameraSpecs :=
  if camName = "Arducam_12MP" then .arducam else .reachyMiniLiteCam

/-- The inner `for device in devices` loop of `_get_video_device`, for one
`cam_name`: a name-matching device with `api.v4l2.path` returns its path;
a name-matching device without the path returns `cam_name` itself when the
class is `imx708`, otherwise scanning continues. -/
def findDeviceInClass (camName : String) : List VideoDevice → Option (String × CameraSpecs)
  | [] => none
  | d :: rest =>
    if strContains d.displayName camName then
      if d.hasV4l2Path then
        some (d.v4l2Path, specsFor camName)
      else if camName = "imx708" then
        some (camName, .reachyMiniWirelessCam)
      else findDeviceInClass camName rest
    else findDeviceInClass camName rest

/-- `GstWebRTC._get_video_device`: the outer loop tries each class of
`cam_names` in order; the first class with a winning device determines the
result; with no match at all the function returns `("", None)`. -/
def get_video_device (devices : List VideoDevice) : String × Option CameraSpecs :=
  match findDeviceInClass "Reachy" devices with
  | some (p, s) => (p, some s)
  | none =>
    match findDeviceInClass "Arducam_12MP" devices with
    | some (p, s) => (p, some s)
    | none =>
      match findDeviceInClass "imx708" devices with
      | some (p, s) => (p, some s)
      | none => ("", none)

/-- A device wins for a class when its name contains the marker and it
either carries `api.v4l2.path` or the class is `imx708`. -/
def deviceWins (camName : String) (d : VideoDevice) : Bool :=
  strContains d.displayName camName && (d.hasV4l2Path || camName = "imx708")

/-- `GstWebRTC.__init__` right after resolution: `camera_specs is None`
raises `RuntimeError("Camera specs not set")`, aborting construction. -/
def initCameraSpecs : Option CameraSpecs → Except String CameraSpecs
  | none => .error "Camera specs not set"
  | some s => .ok s

/-- `findDeviceInClass` fails exactly when no device wins for the class. -/
theorem findDeviceInClass_eq_none_iff (camName : String) (devices : List VideoDevice) :
    findDeviceInClass camName devices = none ↔
      ∀ d ∈ devices, deviceWins camName d = false := by
  induction devices with
  | nil => simp [findDeviceInClass]
  | cons d rest ih =>
    simp only [findDeviceInClass, List.mem_cons, forall_eq_or_imp]
    split_ifs with h1 h2 h3
    · simp [deviceWins, h1, h2]
    · subst h3
      simp [deviceWins, h1, h2]
    · rw [ih]
      simp [deviceWins, h1, h2, h3]
    · rw [ih]
      simp [deviceWins, h1]

/-! ### GStreamer element configurations set by the builders -/

/-- Properties set on a `queue` element. `leaky = 2` is GStreamer's
"downstream" leak: drop the oldest buffered item instead of blocking. -/
structure QueueConfig where
  maxSizeBuffers : Nat
  maxSizeBytes : Nat
  maxSizeTime : Nat
  leaky : Nat
deriving DecidableEq, Repr

/-- GStreamer `leaky=2` (downstream): drop the oldest buffer when full. -/
def LEAKY_DOWNSTREAM : Nat := 2

/-- GStreamer `tcpserversink` `recover-policy=3`: resume a reconnecting
client at the next keyframe. -/
def RECOVER_POLICY_KEYFRAME : Nat := 3

/-- Properties set on the `tcpserversink` element. -/
structure TcpServerSinkConfig where
  host : String
  port : Nat
  recoverPolicy : Nat
  sync : Bool
deriving DecidableEq, Repr

/-- Properties set on the `appsink` element (`frame_appsink`). -/
structure AppsinkConfig where
  drop : Bool
  maxBuffers : Nat
  capsFormat : String
  capsWidth : Nat
  capsHeight : Nat
deriving DecidableEq, Repr

/-- The per-branch configuration of a successfully built video graph:
the live (WebRTC) queue, the recording TCP sink and the frame appsink,
plus whether the build feeds from the external `rpicam-vid` encoder. -/
structure VideoGraph where
  queueWebrtc : QueueConfig
  tcpSink : TcpServerSinkConfig
  appsink : AppsinkConfig
  usesExternalEncoder : Bool
deriving DecidableEq, Repr

/-- Graph built by `_configure_video_rpicam` in the success case
(element properties as set in the source). -/
def rpicamGraph (width height : Nat) : VideoGraph :=
  { queueWebrtc := { maxSizeBuffers := 1, maxSizeBytes := 0, maxSizeTime := 0, leaky := 2 }
    tcpSink := { host := "0.0.0.0", port := 9001, recoverPolicy := 3, sync := false }
    appsink := { drop := true, maxBuffers := 1, capsFormat := "BGR",
                 capsWidth := width, capsHeight := height }
    usesExternalEncoder := true }

/-- Graph built by `_configure_video_v4l2` in the success case. -/
def v4l2Graph (width height : Nat) : VideoGraph :=
  { queueWebrtc := { maxSizeBuffers := 1, maxSizeBytes := 0, maxSizeTime := 0, leaky := 2 }
    tcpSink := { host := "0.0.0.0", port := 9001, recoverPolicy := 3, sync := false }
    appsink := { drop := true, maxBuffers := 1, capsFormat := "BGR",
                 capsWidth := width, capsHeight := height }
    usesExternalEncoder := false }

/-! ### Subprocess model (`rpicam-vid` via `subprocess.Popen`) -/

/-- Status of the external `rpicam-vid` process: still running (and whether
it exits within the 3-second grace period after `terminate()`), or exited. -/
inductive ProcStatus
  | running (respondsToTerminate : Bool)
  | exited
deriving DecidableEq, Repr

/-- Subprocess-management actions, recorded as a trace: `terminate()`,
the bounded `wait(timeout=3)` grace period, and `kill()`. -/
inductive ProcAction
  | terminate
  | waitGrace
  | kill
deriving DecidableEq, Repr

/-- `GstWebRTC._cleanup_rpicam`: if the handle is set and `poll()` is
`None` (still running), send `terminate()`, `wait(timeout=3)`; on
`TimeoutExpired`, `kill()` then `wait()`; finally clear the handle.
An already-exited process (or no handle) is left untouched. -/
def cleanup_rpicam : Option ProcStatus → Option ProcStatus × List ProcAction
  | some (.running true) => (none, [.terminate, .waitGrace])
  | some (.running false) => (none, [.terminate, .waitGrace, .kill])
  | some .exited => (some .exited, [])
  | none => (none, [])

/-! ### Graph construction (`_configure_video_rpicam` / `_configure_video_v4l2`)

The environment records which executables and element factories are
available; the builder walks the source in program order. A factory whose
product immediately receives `set_property` raises `AttributeError` on a
`None` element before any later check runs; bare elements are only caught
by the aggregate `all(elements)` check. -/

/-- How construction of the video branch fails. -/
inductive BuildError
  | runtimeEncoderMissing
  | attributeError (element : String)
  | runtimeAvdecMissing
  | runtimeElementsFailed
deriving DecidableEq, Repr

/-- Environment for `_configure_video_rpicam`: `shutil.which("rpicam-vid")`,
availability of each GStreamer element factory by name, and whether the
spawned subprocess would respond to `terminate()`. -/
structure RpicamEnv where
  rpicamVidPresent : Bool
  elemAvail : String → Bool
  procResponsive : Bool

/-- Result of `_configure_video_rpicam`: the subprocess handle state when
the call returns or raises, and the outcome. -/
structure RpicamBuildResult where
  rpicamProc : Option ProcStatus
  result : Except BuildError VideoGraph

/-- The subprocess handle right after `subprocess.Popen` of `rpicam-vid`:
a running process (whose responsiveness to `terminate()` the environment
fixes). -/
def spawnedProc (env : RpicamEnv) : Option ProcStatus :=
  some (.running env.procResponsive)

/-- `GstWebRTC._configure_video_rpicam`, in source order:
`shutil.which` check and raise; `Popen` of `rpicam-vid`; element creation
where `fdsrc`, `h264parse`, `capsfilter_h264`, `queue_webrtc`,
`tcpserversink` and `appsink` get properties set right away (a missing
factory raises there, without cleanup), `avdec_h264` has a dedicated
check that raises without cleanup, and the remaining bare elements
(`tee`, `mpegtsmux`, `videoconvert`) are only caught by the
`all(elements)` check, which runs `_cleanup_rpicam()` before raising. -/
def configure_video_rpicam (env : RpicamEnv) (width height : Nat) : RpicamBuildResult :=
  if !env.rpicamVidPresent then
    { rpicamProc := none, result := .error .runtimeEncoderMissing }
  else if !env.elemAvail "fdsrc" then
    { rpicamProc := spawnedProc env, result := .error (.attributeError "fdsrc") }
  else if !env.elemAvail "h264parse" then
    { rpicamProc := spawnedProc env, result := .error (.attributeError "h264parse") }
  else if !env.elemAvail "capsfilter" then
    { rpicamProc := spawnedProc env, result := .error (.attributeError "capsfilter_h264") }
  else if !env.elemAvail "queue" then
    { rpicamProc := spawnedProc env, result := .error (.attributeError "queue_webrtc") }
  else if !env.elemAvail "tcpserversink" then
    { rpicamProc := spawnedProc env, result := .error (.attributeError "tcpserversink") }
  else if !env.elemAvail "avdec_h264" then
    { rpicamProc := spawnedProc env, result := .error .runtimeAvdecMissing }
  else if !env.elemAvail "appsink" then
    { rpicamProc := spawnedProc env, result := .error (.attributeError "appsink") }
  else if !(env.elemAvail "tee" && env.elemAvail "mpegtsmux"
            && env.elemAvail "videoconvert") then
    { rpicamProc := (cleanup_rpicam (spawnedProc env)).1
      result := .error .runtimeElementsFailed }
  else
    { rpicamProc := spawnedProc env, result := .ok (rpicamGraph width height) }

/-- Every outcome of `configure_video_rpicam`: the `which` failure (no
spawn), an `AttributeError` or the `avdec_h264` failure (subprocess left
as spawned), the aggregate-check failure (subprocess cleaned up), or
success. -/
theorem rpicam_cases (env : RpicamEnv) (width height : Nat) :
    configure_video_rpicam env width height
      = { rpicamProc := none, result := .error .runtimeEncoderMissing }
    ∨ (∃ e, configure_video_rpicam env width height
        = { rpicamProc := spawnedProc env, result := .error (.attributeError e) })
    ∨ configure_video_rpicam env width height
        = { rpicamProc := spawnedProc env, result := .error .runtimeAvdecMissing }
    ∨ configure_video_rpicam env width height
        = { rpicamProc := none, result := .error .runtimeElementsFailed }
    ∨ configure_video_rpicam env width height
        = { rpicamProc := spawnedProc env, result := .ok (rpicamGraph width height) } := by
  unfold configure_video_rpicam
  repeat' split
  all_goals
    first
      | exact .inl rfl
      | exact .inr (.inl ⟨_, rfl⟩)
      | exact .inr (.inr (.inl rfl))
      | exact .inr (.inr (.inr (.inr rfl)))
      | (refine .inr (.inr (.inr (.inl ?_)))
         cases hb : env.procResponsive <;> simp [spawnedProc, cleanup_rpicam, hb])

/-- Environment for `_configure_video_v4l2`: element-factory availability. -/
structure V4l2Env where
  elemAvail : String → Bool

/-- `GstWebRTC._configure_video_v4l2`, in source order: `capsfilter`,
`appsink`, `v4l2h264enc`, `queue_webrtc` and `tcpserversink` get
properties set right away; the bare elements (`libcamerasrc`, `tee`,
`h264parse`, `mpegtsmux`, `videoconvert`) are caught by the aggregate
check. No subprocess exists on this path. -/
def configure_video_v4l2 (env : V4l2Env) (width height : Nat) :
    Except BuildError VideoGraph :=
  if !env.elemAvail "capsfilter" then .error (.attributeError "capsfilter")
  else if !env.elemAvail "appsink" then .error (.attributeError "appsink")
  else if !env.elemAvail "v4l2h264enc" then .error (.attributeError "v4l2h264enc")
  else if !env.elemAvail "queue" then .error (.attributeError "queue_webrtc")
  else if !env.elemAvail "tcpserversink" then .error (.attributeError "tcpserversink")
  else if !(env.elemAvail "libcamerasrc" && env.elemAvail "tee"
            && env.elemAvail "h264parse" && env.elemAvail "mpegtsmux"
            && env.elemAvail "videoconvert") then
    .error .runtimeElementsFailed
  else .ok (v4l2Graph width height)

/-- Every outcome of `configure_video_v4l2`: an `AttributeError`, the
aggregate-check failure, or success. No subprocess exists on this path. -/
theorem v4l2_cases (env : V4l2Env) (width height : Nat) :
    (∃ e, configure_video_v4l2 env width height = .error (.attributeError e))
    ∨ configure_video_v4l2 env width height = .error .runtimeElementsFailed
    ∨ configure_video_v4l2 env width height = .ok (v4l2Graph width height) := by
  unfold configure_video_v4l2
  repeat' split
  all_goals
    first
      | exact .inl ⟨_, rfl⟩
      | exact .inr (.inl rfl)
      | exact .inr (.inr rfl)

/-! ### Lifecycle (`start` / `pause` / `stop` / `is_running` / bus handler) -/

/-- GStreamer pipeline states used by the daemon. -/
inductive GstState
  | null
  | paused
  | playing
deriving DecidableEq, Repr

/-- The daemon state the lifecycle methods touch: the two pipelines'
states and the `rpicam-vid` subprocess handle. -/
structure DaemonState where
  senderState : GstState
  receiverState : GstState
  rpicamProc : Option ProcStatus
deriving DecidableEq, Repr

/-- `GstWebRTC.start`: set both pipelines to `PLAYING`. -/
def GstWebRTC.start (s : DaemonState) : DaemonState :=
  { s with senderState := .playing, receiverState := .playing }

/-- `GstWebRTC.pause`: set both pipelines to `PAUSED`. -/
def GstWebRTC.pause (s : DaemonState) : DaemonState :=
  { s with senderState := .paused, receiverState := .paused }

/-- `GstWebRTC.stop`: set both pipelines to `NULL` and run
`_cleanup_rpicam`; the emitted subprocess actions are returned as a trace. -/
def GstWebRTC.stop (s : DaemonState) : DaemonState × List ProcAction :=
  let c := cleanup_rpicam s.rpicamProc
  ({ s with senderState := .null, receiverState := .null, rpicamProc := c.1 }, c.2)

/-- `GstWebRTC.is_running`: the sender pipeline is in `PLAYING`. -/
def GstWebRTC.is_running (s : DaemonState) : Bool :=
  match s.senderState with
  | .playing => true
  | _ => false

/-- Is a live (un-exited) subprocess recorded in the handle? -/
def procRunning : Option ProcStatus → Bool
  | some (.running _) => true
  | _ => false

/-- A message delivered on a pipeline bus. -/
inductive BusMessage
  | eos
  | busError (err : String) (debug : String)
  | other
deriving DecidableEq, Repr

/-- `GstWebRTC._on_bus_message`: on `EOS` it logs a warning and returns
`False`; on `ERROR` it logs the parsed error and returns `False`; on any
other message it returns `True`. Returning `False` removes the bus watch.
The handler mutates nothing: the state is returned unchanged. -/
def on_bus_message (s : DaemonState) (msg : BusMessage) : DaemonState × Bool :=
  match msg with
  | .eos => (s, false)
  | .busError _ _ => (s, false)
  | .other => (s, true)

/-! ### Frame sink (`GstWebRTC.read_frame`) -/

/-- A GStreamer buffer: its byte contents. -/
structure GstBuffer where
  bytes : List Nat
deriving DecidableEq, Repr

/-- A sample pulled from the appsink; `get_buffer()` may return `None`. -/
structure GstSample where
  buffer : Option GstBuffer
deriving DecidableEq, Repr

/-- Runtime state of the appsink as seen by one `read_frame` call:
what `try_pull_sample(Gst.SECOND)` returns (`none` models the 1-second
timeout expiring with no sample). -/
structure AppsinkState where
  pulled : Option GstSample
deriving DecidableEq, Repr

/-- `Gst.SECOND` in nanoseconds. -/
def GstSECOND : Nat := 1000000000

/-- The timeout `read_frame` passes to `try_pull_sample`. -/
def readFrameTimeout : Nat := GstSECOND

/-- A decoded frame as handed to callers: shape `(height, width, 3)` and
the copied-out bytes. -/
structure Frame where
  height : Nat
  width : Nat
  channels : Nat
  bytes : List Nat
deriving DecidableEq, Repr

/-- Outcome of `read_frame`: `None` (unavailable), a frame, or the
`ValueError` numpy's `reshape` raises when the byte count does not match
`height*width*3`. -/
inductive ReadResult
  | unavailable
  | frame (f : Frame)
  | reshapeError
deriving DecidableEq, Repr

/-- `GstWebRTC.read_frame`: `None` when no appsink is configured; pull a
sample with a 1-second timeout (`None` on expiry); `None` when the sample
has no buffer; otherwise `extract_dup` copies the whole buffer and the
bytes are reshaped to `(height, width, 3)`. -/
def read_frame (appsink : Option AppsinkState) (width height : Nat) : ReadResult :=
  match appsink with
  | none => .unavailable
  | some sink =>
    match sink.pulled with
    | none => .unavailable
    | some sample =>
      match sample.buffer with
      | none => .unavailable
      | some buf =>
        let dat := buf.bytes
        if dat.length = height * width * 3 then
          .frame { height := height, width := width, channels := 3, bytes := dat }
        else .reshapeError

/-- The appsink's BGR caps at the configured resolution force every
delivered buffer to hold exactly `width*height*3` bytes. -/
def capsConform (sink : AppsinkState) (width height : Nat) : Prop :=
  ∀ sample, sink.pulled = some sample →
    ∀ buf, sample.buffer = some buf → buf.bytes.length = width * height * 3

/-! ### Camera HTTP routes (`daemon/app/routers/camera.py`) -/

/-- `reachy_mini.daemon.utils.CAMERA_SOCKET_PATH` (per the router's
module docstring). -/
def CAMERA_SOCKET_PATH : String := "/tmp/reachymini_camera_socket"

/-- The JSON body returned by `GET /camera/status`. -/
structure CameraStatus where
  available : Bool
  socketPath : String
  socketExists : Bool
deriving DecidableEq, Repr

/-- `get_camera_status`: builds the response from
`os.path.exists(CAMERA_SOCKET_PATH)` alone. -/
def get_camera_status (socketExists : Bool) : CameraStatus :=
  { available := socketExists
    socketPath := CAMERA_SOCKET_PATH
    socketExists := socketExists }

/-- The status endpoint as a function of the whole observable world
(socket existence and whether the capture graph is running): the handler
consults only the socket, so the second component is unread. -/
def statusOf (socketExists : Bool) (_graphRunning : Bool) : CameraStatus :=
  get_camera_status socketExists

/-- Response of `GET /camera/frame`: an HTTP error (status, detail) or a
JPEG encoding of a frame at an effective quality. -/
inductive FrameResponse
  | httpError (status : Nat) (detail : String)
  | jpeg (f : Frame) (quality : Int)
deriving DecidableEq, Repr

/-- `get_camera_frame`: read a frame (`None` raises 503), clamp
`quality` with `max(1, min(100, quality))`, then `cv2.imencode`
(a failed encode raises 500). -/
def get_camera_frame (frame : Option Frame) (quality : Int) (encodeOk : Bool) :
    FrameResponse :=
  match frame with
  | none => .httpError 503 "No frame available from camera"
  | some f =>
    let q := max 1 (min 100 quality)
    if encodeOk then .jpeg f q
    else .httpError 500 "Failed to encode frame as JPEG"

/-- The effective parameters `get_camera_stream` hands to the MJPEG
generator. -/
structure StreamParams where
  quality : Int
  fps : Rat
deriving DecidableEq, Repr

/-- `get_camera_stream`: `fps = max(1.0, min(30.0, fps))` and
`quality = max(1, min(100, quality))` before streaming starts. -/
def get_camera_stream (quality : Int) (fps : Rat) : StreamParams :=
  { fps := max 1 (min 30 fps), quality := max 1 (min 100 quality) }

/-! ### aiortc video track (`daemon/app/routers/webrtc_simple.py`) -/

/-- An `av.VideoFrame` as produced by `CameraTrack.recv`. -/
structure VideoFrame where
  bytes : List Nat
  height : Nat
  width : Nat
  format : String
  pts : Nat
deriving DecidableEq, Repr

/-- `np.zeros((720, 1280, 3), dtype=np.uint8)`: the black substitute
frame. -/
def blackFrame : Frame :=
  { height := 720, width := 1280, channels := 3
    bytes := List.replicate (720 * 1280 * 3) 0 }

/-- `CameraTrack._read_frame`: `None` when `daemon._webrtc is None`,
otherwise the daemon's `read_frame`. -/
def CameraTrack.readFrame
    (webrtc : Option (Option AppsinkState × Nat × Nat)) : ReadResult :=
  match webrtc with
  | none => .unavailable
  | some (sink, width, height) => read_frame sink width height

/-- `CameraTrack.recv`: after pacing (`next_timestamp` yields `pts`),
substitute the black 1280x720 frame when the read produced `None`, wrap
as a `bgr24` `VideoFrame`, and stamp it with the paced `pts`. -/
def CameraTrack.recv (frame : Option Frame) (pts : Nat) : VideoFrame :=
  let f := match frame with
    | none => blackFrame
    | some fr => fr
  { bytes := f.bytes, height := f.height, width := f.width
    format := "bgr24", pts := pts }

/-! ### Claims -/

/-- C1 counterexample: an `element-error` fault delivered mid-`Playing`
(sender `PLAYING`, subprocess live) leaves the daemon state entirely
unchanged — the pipeline is not forced to `NULL` (`Stopped`) and the
subprocess is not released, contradicting the claim. -/
theorem C1_counterexample :
    (on_bus_message ⟨.playing, .playing, some (.running true)⟩
        (.busError "Internal data stream error." "gstfdsrc.c")).1
      = ⟨.playing, .playing, some (.running true)⟩
    ∧ (on_bus_message ⟨.playing, .playing, some (.running true)⟩
        (.busError "Internal data stream error." "gstfdsrc.c")).1.senderState
      ≠ GstState.null
    ∧ (on_bus_message ⟨.playing, .playing, some (.running true)⟩ .eos).1.senderState
      ≠ GstState.null :=
  ⟨rfl, by decide, by decide⟩

/-- C1 (amended): on `end-of-stream` and `element-error` bus messages the
handler logs the fault and returns `False` — which removes the bus watch —
but leaves the daemon state (pipeline states, subprocess) unchanged; on
any other message it returns `True`. No transition to `Stopped` occurs and
no resource is released, so a subsequent `read()` is unaffected. -/
theorem C1_bus_fault_only_logs (s : DaemonState) (err debug : String) :
    on_bus_message s .eos = (s, false)
    ∧ on_bus_message s (.busError err debug) = (s, false)
    ∧ on_bus_message s .other = (s, true) :=
  ⟨rfl, rfl, rfl⟩

/-- Environment where only the `avdec_h264` element factory is missing. -/
def avdecMissingEnv : RpicamEnv :=
  { rpicamVidPresent := true
    elemAvail := fun e => !(e == "avdec_h264")
    procResponsive := true }

/-- C2 counterexample: with `avdec_h264` missing, `_configure_video_rpicam`
raises after `rpicam-vid` has been spawned, and the error propagates with
the subprocess still running — it is not terminated, contradicting the
claim's atomic-rollback guarantee. -/
theorem C2_counterexample :
    (configure_video_rpicam avdecMissingEnv 1280 720).result
      = .error .runtimeAvdecMissing
    ∧ (configure_video_rpicam avdecMissingEnv 1280 720).rpicamProc
      = some (.running true) :=
  ⟨rfl, rfl⟩

/-- C2 (amended): a failure of the aggregate `all(elements)` check
terminates the spawned subprocess (`_cleanup_rpicam`) before the error
propagates, but the dedicated `avdec_h264` check (like the property-set
`AttributeError` paths) raises with the subprocess left running; on
success the subprocess feeds the returned graph. In every failure case no
graph is returned, and the `v4l2` build spawns no subprocess at all. -/
theorem C2_rollback_incomplete (env : RpicamEnv) (width height : Nat) :
    ((configure_video_rpicam env width height).result = .error .runtimeElementsFailed →
      (configure_video_rpicam env width height).rpicamProc = none)
    ∧ ((configure_video_rpicam env width height).result = .error .runtimeAvdecMissing →
      (configure_video_rpicam env width height).rpicamProc
        = some (.running env.procResponsive))
    ∧ (∀ g, (configure_video_rpicam env width height).result = .ok g →
      g = rpicamGraph width height) := by
  rcases rpicam_cases env width height with h | ⟨e, h⟩ | h | h | h <;> rw [h]
  · exact ⟨by simp, by simp, fun g hg => absurd hg (by simp)⟩
  · exact ⟨by simp, by simp, fun g hg => absurd hg (by simp)⟩
  · exact ⟨by simp, fun _ => rfl, fun g hg => absurd hg (by simp)⟩
  · exact ⟨fun _ => rfl, by simp, fun g hg => absurd hg (by simp)⟩
  · exact ⟨by simp, by simp, fun g hg => by injection hg with hh; exact hh.symm⟩

/-- Environment where only the `tee` element factory is missing. -/
def teeMissingEnv : RpicamEnv :=
  { rpicamVidPresent := true
    elemAvail := fun e => !(e == "tee")
    procResponsive := true }

/-- C2 witness: with `tee` missing the aggregate check fires and the
subprocess handle is cleared before the error propagates. -/
theorem C2_rollback_incomplete_witness :
    (configure_video_rpicam teeMissingEnv 1280 720).rpicamProc = none :=
  (C2_rollback_incomplete teeMissingEnv 1280 720).1 rfl

/-- C5: when `shutil.which("rpicam-vid")` fails, `_configure_video_rpicam`
raises `RuntimeError` immediately, with no subprocess spawned
(`rpicamProc = none`). -/
theorem C5_encoder_checked_before_spawn (env : RpicamEnv) (width height : Nat)
    (h : env.rpicamVidPresent = false) :
    configure_video_rpicam env width height
      = { rpicamProc := none, result := .error .runtimeEncoderMissing } := by
  unfold configure_video_rpicam
  simp [h]

/-- C5 witness at a concrete environment with every element available but
the `rpicam-vid` binary absent. -/
theorem C5_encoder_checked_before_spawn_witness :
    configure_video_rpicam ⟨false, fun _ => true, true⟩ 1280 720
      = { rpicamProc := none, result := .error .runtimeEncoderMissing } :=
  C5_encoder_checked_before_spawn ⟨false, fun _ => true, true⟩ 1280 720 rfl

/-- C6: in both builds, any successfully constructed graph has the live
(WebRTC) queue bounded at one buffer with `leaky=2` (drop oldest), and the
recording TCP sink with `sync=false` (a slow or absent client never
backpressures the tee) and `recover-policy=3` (reconnect at the next
keyframe). -/
theorem C6_branch_policies (env : RpicamEnv) (envB : V4l2Env) (w h wB hB : Nat) :
    (∀ g, (configure_video_rpicam env w h).result = .ok g →
      g.queueWebrtc.maxSizeBuffers = 1 ∧ g.queueWebrtc.leaky = LEAKY_DOWNSTREAM
      ∧ g.tcpSink.sync = false ∧ g.tcpSink.recoverPolicy = RECOVER_POLICY_KEYFRAME)
    ∧ (∀ g, configure_video_v4l2 envB wB hB = .ok g →
      g.queueWebrtc.maxSizeBuffers = 1 ∧ g.queueWebrtc.leaky = LEAKY_DOWNSTREAM
      ∧ g.tcpSink.sync = false ∧ g.tcpSink.recoverPolicy = RECOVER_POLICY_KEYFRAME) := by
  constructor
  · intro g hg
    rcases rpicam_cases env w h with hc | ⟨e, hc⟩ | hc | hc | hc <;> rw [hc] at hg
    · exact absurd hg (by simp)
    · exact absurd hg (by simp)
    · exact absurd hg (by simp)
    · exact absurd hg (by simp)
    · injection hg with hh
      subst hh
      exact ⟨rfl, rfl, rfl, rfl⟩
  · intro g hg
    rcases v4l2_cases envB wB hB with ⟨e, hc⟩ | hc | hc <;> rw [hc] at hg
    · exact absurd hg (by simp)
    · exact absurd hg (by simp)
    · injection hg with hh
      subst hh
      exact ⟨rfl, rfl, rfl, rfl⟩

/-- Environment where every binary and element factory is available. -/
def allAvailEnv : RpicamEnv :=
  { rpicamVidPresent := true, elemAvail := fun _ => true, procResponsive := true }

/-- C6 witness: the policies hold on the concrete graph the rpicam build
returns when everything is available. -/
theorem C6_branch_policies_witness :
    (rpicamGraph 1280 720).queueWebrtc.maxSizeBuffers = 1
    ∧ (rpicamGraph 1280 720).queueWebrtc.leaky = LEAKY_DOWNSTREAM
    ∧ (rpicamGraph 1280 720).tcpSink.sync = false
    ∧ (rpicamGraph 1280 720).tcpSink.recoverPolicy = RECOVER_POLICY_KEYFRAME :=
  (C6_branch_policies allAvailEnv ⟨fun _ => true⟩ 1280 720 1280 720).1
    (rpicamGraph 1280 720) rfl

/-- C9: `stop()` is idempotent and convergent — it is a total function (no
error path), a second `stop()` leaves the state fixed and emits no further
subprocess actions, both pipelines end in `NULL` (`Stopped`) and no live
subprocess remains; a responsive subprocess gets `terminate()` plus the
bounded 3-second wait, an unresponsive one escalates to `kill()`. -/
theorem C9_stop_idempotent_convergent (s : DaemonState) (ss rs : GstState) :
    GstWebRTC.stop (GstWebRTC.stop s).1 = ((GstWebRTC.stop s).1, [])
    ∧ (GstWebRTC.stop s).1.senderState = GstState.null
    ∧ (GstWebRTC.stop s).1.receiverState = GstState.null
    ∧ procRunning (GstWebRTC.stop s).1.rpicamProc = false
    ∧ (GstWebRTC.stop ⟨ss, rs, some (.running true)⟩).2
      = [.terminate, .waitGrace]
    ∧ (GstWebRTC.stop ⟨ss, rs, some (.running false)⟩).2
      = [.terminate, .waitGrace, .kill] := by
  obtain ⟨a, b, pr⟩ := s
  rcases pr with _ | st
  · exact ⟨rfl, rfl, rfl, rfl, rfl, rfl⟩
  · rcases st with b' | _
    · cases b' <;> exact ⟨rfl, rfl, rfl, rfl, rfl, rfl⟩
    · exact ⟨rfl, rfl, rfl, rfl, rfl, rfl⟩

/-- C3: `read_frame` pulls with the bounded 1-second (`Gst.SECOND`)
timeout; it returns `None` when no appsink is configured, when the pull
times out with no sample, or when the sample has no buffer; under the
appsink's BGR caps (every delivered buffer is `width*height*3` bytes) it
never hits the reshape error, and any returned frame has shape
`(height, width, 3)` with exactly `width*height*3` bytes that are a copy
(`extract_dup`, modeled as value equality) of the pulled buffer. -/
theorem C3_read_frame_contract (appsink : Option AppsinkState) (width height : Nat)
    (hconform : ∀ sink, appsink = some sink → capsConform sink width height) :
    readFrameTimeout = GstSECOND
    ∧ read_frame none width height = .unavailable
    ∧ (∀ sink, sink.pulled = none → read_frame (some sink) width height = .unavailable)
    ∧ (∀ sink sample, sink.pulled = some sample → sample.buffer = none →
        read_frame (some sink) width height = .unavailable)
    ∧ read_frame appsink width height ≠ .reshapeError
    ∧ (∀ f, read_frame appsink width height = .frame f →
        f.bytes.length = width * height * 3
        ∧ f.width = width ∧ f.height = height ∧ f.channels = 3
        ∧ ∀ sink sample buf, appsink = some sink → sink.pulled = some sample →
            sample.buffer = some buf → f.bytes = buf.bytes) := by
  refine ⟨rfl, rfl, ?_, ?_, ?_, ?_⟩
  · intro sink hp
    simp [read_frame, hp]
  · intro sink sample hp hb
    simp [read_frame, hp, hb]
  · rcases appsink with _ | sink
    · simp [read_frame]
    · rcases hs : sink.pulled with _ | sample
      · simp [read_frame, hs]
      · rcases hb : sample.buffer with _ | buf
        · simp [read_frame, hs, hb]
        · have hlen := hconform sink rfl sample hs buf hb
          simp only [read_frame, hs, hb]
          rw [if_pos (by rw [hlen]; ring)]
          simp
  · intro f hf
    rcases appsink with _ | sink
    · simp [read_frame] at hf
    · rcases hs : sink.pulled with _ | sample
      · simp [read_frame, hs] at hf
      · rcases hb : sample.buffer with _ | buf
        · simp [read_frame, hs, hb] at hf
        · have hlen := hconform sink rfl sample hs buf hb
          simp only [read_frame, hs, hb] at hf
          rw [if_pos (by rw [hlen]; ring)] at hf
          rcases hf with rfl | h
          · refine ⟨hlen, rfl, rfl, rfl, ?_⟩
            intro sink' sample' buf' h1 h2 h3
            cases h1
            rw [hs] at h2
            cases h2
            rw [hb] at h3
            cases h3
            rfl

/-- C3 witness: a configured appsink holding a 3-byte buffer at a 1x1
resolution satisfies the caps hypothesis and never reshape-errors. -/
theorem C3_read_frame_contract_witness :
    read_frame (some ⟨some ⟨some ⟨[7, 8, 9]⟩⟩⟩) 1 1 ≠ ReadResult.reshapeError :=
  (C3_read_frame_contract (some ⟨some ⟨some ⟨[7, 8, 9]⟩⟩⟩) 1 1
    (by
      intro sink h
      cases h
      intro sample hs buf hb
      cases hs
      cases hb
      rfl)).2.2.2.2.1

/-- C4: device resolution is ordered first-match over the priority list
`["Reachy", "Arducam_12MP", "imx708"]`: a class matches exactly when some
discovered source wins for it (name contains the marker, and it carries
`api.v4l2.path` or the class is `imx708`); the first matching class in
order determines the returned handle and specs; with no match the
resolver returns `("", None)` and `__init__` then raises. -/
theorem C4_resolver_first_match (devices : List VideoDevice) :
    (∀ c, findDeviceInClass c devices = none ↔ ∀ d ∈ devices, deviceWins c d = false)
    ∧ (∀ p s, findDeviceInClass "Reachy" devices = some (p, s) →
        get_video_device devices = (p, some s))
    ∧ (findDeviceInClass "Reachy" devices = none →
        ∀ p s, findDeviceInClass "Arducam_12MP" devices = some (p, s) →
          get_video_device devices = (p, some s))
    ∧ (findDeviceInClass "Reachy" devices = none →
        findDeviceInClass "Arducam_12MP" devices = none →
        ∀ p s, findDeviceInClass "imx708" devices = some (p, s) →
          get_video_device devices = (p, some s))
    ∧ ((∀ d ∈ devices, deviceWins "Reachy" d = false
          ∧ deviceWins "Arducam_12MP" d = false ∧ deviceWins "imx708" d = false) →
        get_video_device devices = ("", none)
        ∧ initCameraSpecs (get_video_device devices).2
            = .error "Camera specs not set") := by
  refine ⟨fun c => findDeviceInClass_eq_none_iff c devices, ?_, ?_, ?_, ?_⟩
  · intro p s h
    simp [get_video_device, h]
  · intro h1 p s h2
    simp [get_video_device, h1, h2]
  · intro h1 h2 p s h3
    simp [get_video_device, h1, h2, h3]
  · intro h
    have h1 : findDeviceInClass "Reachy" devices = none :=
      (findDeviceInClass_eq_none_iff _ _).2 fun d hd => (h d hd).1
    have h2 : findDeviceInClass "Arducam_12MP" devices = none :=
      (findDeviceInClass_eq_none_iff _ _).2 fun d hd => (h d hd).2.1
    have h3 : findDeviceInClass "imx708" devices = none :=
      (findDeviceInClass_eq_none_iff _ _).2 fun d hd => (h d hd).2.2
    have hr : get_video_device devices = ("", none) := by
      simp [get_video_device, h1, h2, h3]
    refine ⟨hr, ?_⟩
    rw [hr]
    rfl


/-- C4 witness: with one unrecognized webcam attached, no class matches,
the resolver returns the empty handle and construction fails. -/
theorem C4_resolver_first_match_witness :
    get_video_device [⟨"USB2.0 HD UVC WebCam", true, "/dev/video0"⟩] = ("", none) :=
  ((C4_resolver_first_match [⟨"USB2.0 HD UVC WebCam", true, "/dev/video0"⟩]).2.2.2.2
    (by decide)).1

/-- C7: the snapshot route returns 503 when the camera reports no frame,
and otherwise encodes at `max(1, min(100, quality))`, which always lies in
`[1, 100]`; the stream route clamps `fps` with `max(1.0, min(30.0, fps))`
— to the nearest bound when out of range, unchanged when in range — and
`quality` to `[1, 100]`, before streaming begins. -/
theorem C7_route_clamping (f : Frame) (q : Int) (fps : Rat) :
    get_camera_frame none q true = .httpError 503 "No frame available from camera"
    ∧ (∀ q' : Int, get_camera_frame (some f) q' true = .jpeg f (max 1 (min 100 q'))
        ∧ 1 ≤ max 1 (min 100 q') ∧ max 1 (min 100 q') ≤ 100)
    ∧ 1 ≤ (get_camera_stream q fps).quality
    ∧ (get_camera_stream q fps).quality ≤ 100
    ∧ 1 ≤ (get_camera_stream q fps).fps
    ∧ (get_camera_stream q fps).fps ≤ 30
    ∧ (fps < 1 → (get_camera_stream q fps).fps = 1)
    ∧ (30 < fps → (get_camera_stream q fps).fps = 30)
    ∧ (1 ≤ fps → fps ≤ 30 → (get_camera_stream q fps).fps = fps) := by
  refine ⟨rfl, ?_, ?_, ?_, ?_, ?_, ?_, ?_, ?_⟩
  · intro q'
    exact ⟨rfl, le_max_left _ _, max_le (by norm_num) (min_le_left _ _)⟩
  · exact le_max_left _ _
  · exact max_le (by norm_num) (min_le_left _ _)
  · exact le_max_left _ _
  · exact max_le (by norm_num) (min_le_left _ _)
  · intro hlt
    have hm : min (30 : Rat) fps = fps := min_eq_right (le_trans hlt.le (by norm_num))
    show max 1 (min 30 fps) = 1
    rw [hm, max_eq_left hlt.le]
  · intro hgt
    show max 1 (min 30 fps) = 30
    rw [min_eq_left hgt.le]
    norm_num
  · intro h1 h2
    show max 1 (min 30 fps) = fps
    rw [min_eq_right h2, max_eq_right h1]

/-- C7 witness: out-of-range requests (`quality=150`, `fps=42`) are
clamped to the nearest bounds, and an unavailable frame yields 503. -/
theorem C7_route_clamping_witness :
    get_camera_frame none 150 true
      = FrameResponse.httpError 503 "No frame available from camera"
    ∧ (get_camera_stream 150 42).fps = 30 :=
  ⟨(C7_route_clamping blackFrame 150 42).1,
   (C7_route_clamping blackFrame 150 42).2.2.2.2.2.2.2.1 (by norm_num)⟩

/-- C8 counterexample: a reachable-but-stopped pipeline and a reachable
running one produce identical status responses — the endpoint's result
does not distinguish them, contradicting the claim. -/
theorem C8_counterexample : statusOf true false = statusOf true true := rfl

/-- C8 (amended): the status query reports only whether the capture
socket exists (`available` and `socket_exists` both equal the socket
check); it carries no information about whether the graph is running —
the response is invariant in the running state. -/
theorem C8_status_reports_socket_only (sock r r' : Bool) :
    statusOf sock r
      = { available := sock, socketPath := CAMERA_SOCKET_PATH, socketExists := sock }
    ∧ statusOf sock r = statusOf sock r' :=
  ⟨rfl, rfl⟩

/-- C10: when the frame read yields `None` (camera unavailable via the
appsink, or `daemon._webrtc is None` so the pipeline was never
constructed), `recv` does not fail or signal unavailability: it delivers
an all-zero 1280x720 3-channel BGR frame stamped with the paced
timestamp; an available frame is delivered unchanged at that timestamp. -/
theorem C10_recv_black_frame_fallback (pts : Nat) (f : Frame) :
    CameraTrack.recv none pts
      = { bytes := List.replicate (720 * 1280 * 3) 0, height := 720, width := 1280,
          format := "bgr24", pts := pts }
    ∧ (CameraTrack.recv none pts).bytes.length = 720 * 1280 * 3
    ∧ CameraTrack.recv (some f) pts
      = { bytes := f.bytes, height := f.height, width := f.width,
          format := "bgr24", pts := pts }
    ∧ CameraTrack.readFrame none = .unavailable := by
  refine ⟨rfl, ?_, rfl, rfl⟩
  show (List.replicate (720 * 1280 * 3) 0).length = 720 * 1280 * 3
  exact List.length_replicate _ _

end ReachyMini
